import Mathlib

/-!
Verification development for the django-money monetary value module
(djmoney/money.py): a shallow embedding of the Money subclass, its
operator overloads and the two helper functions, together with theorems
about metadata propagation, delegation and error behaviour.
-/

/-- Currency object of the base monetary library: identified by its code. -/
structure Currency where
  code : String
deriving DecidableEq

/-- Arbitrary-precision decimal number (Python decimal.Decimal): an integer
mantissa and an exponent, denoting man * 10 ^ exp.  The exponent is part of
the value, as in Python, so that the number of stored decimal digits is
observable. -/
structure Dec where
  man : Int
  exp : Int
deriving DecidableEq

/-- The two rounding modes this module uses: decimal.ROUND_HALF_UP (the
explicit default of quantize) and decimal.ROUND_HALF_EVEN (the context
default used by round). -/
inductive RoundingMode where
  | halfUp
  | halfEven
deriving DecidableEq

/-- Round the fraction num / den (with den positive) to an integer under the
given mode: floor when the remainder is below one half, ceiling when above,
and on an exact half either away from zero (halfUp) or to the even
neighbour (halfEven). -/
def roundScaled (mode : RoundingMode) (num den : Int) : Int :=
  let f := Int.fdiv num den
  let r := num - f * den
  if 2 * r < den then f
  else if den < 2 * r then f + 1
  else
    match mode with
    | .halfUp => if 0 ≤ num then f + 1 else f
    | .halfEven => if f % 2 = 0 then f else f + 1

/-- Rescale a decimal to exponent e, rounding the mantissa with the given
mode: the semantics of Decimal.quantize at exponent e.  Scaling up is exact;
scaling down divides the mantissa by the corresponding power of ten with
rounding. -/
def Dec.scaleTo (d : Dec) (e : Int) (mode : RoundingMode) : Dec :=
  let s := d.exp - e
  if 0 ≤ s then ⟨d.man * 10 ^ s.toNat, e⟩
  else ⟨roundScaled mode d.man (10 ^ (-s).toNat), e⟩

/-- Decimal.quantize: the result takes the exponent of the argument exp. -/
def Dec.quantize (d : Dec) (e : Dec) (mode : RoundingMode) : Dec :=
  d.scaleTo e.exp mode

/-- Exact decimal addition: align to the smaller exponent. -/
def Dec.add (a b : Dec) : Dec :=
  let e := min a.exp b.exp
  ⟨a.man * 10 ^ (a.exp - e).toNat + b.man * 10 ^ (b.exp - e).toNat, e⟩

/-- Exact decimal subtraction: align to the smaller exponent. -/
def Dec.sub (a b : Dec) : Dec :=
  let e := min a.exp b.exp
  ⟨a.man * 10 ^ (a.exp - e).toNat - b.man * 10 ^ (b.exp - e).toNat, e⟩

/-- Exact decimal multiplication. -/
def Dec.mul (a b : Dec) : Dec := ⟨a.man * b.man, a.exp + b.exp⟩

/-- A format-options mapping: association list of string keys and values. -/
abbrev FormatDict := List (String × String)

/-- Modelled from the spec: process-wide configuration, i.e. the django
settings object together with the djmoney settings module (which is not under
src).  DECIMAL_PLACES is the process-wide default precision hint;
AUTO_CONVERT_MONEY and USE_L10N are optional attributes read with getattr
defaults false and true respectively. -/
structure Settings where
  DECIMAL_PLACES : Nat
  AUTO_CONVERT_MONEY : Option Bool
  USE_L10N : Option Bool
deriving DecidableEq

/-- The Money value: amount and currency from the base type, plus the two
django-money attributes decimal_places and format_options, and the
use_l10n override (class default None). -/
structure Money where
  amount : Dec
  currency : Currency
  decimal_places : Nat
  format_options : Option FormatDict
  use_l10n : Option Bool
deriving DecidableEq

/-- Deferred query-expression token (django.db.models.F together with the
combined expressions it builds); an external collaborator, modelled per the
spec as a symbolic placeholder whose reflected operators build combined
expression trees instead of computing numerically. -/
inductive FExpr where
  | ref (name : String)
  | valueOf (m : Money)
  | combine (op : String) (lhs rhs : FExpr)
deriving DecidableEq

def FExpr.radd (self : FExpr) (other : Money) : FExpr :=
  .combine ("+") (.valueOf other) self

def FExpr.rsub (self : FExpr) (other : Money) : FExpr :=
  .combine ("-") (.valueOf other) self

def FExpr.rmul (self : FExpr) (other : Money) : FExpr :=
  .combine ("*") (.valueOf other) self

def FExpr.rtruediv (self : FExpr) (other : Money) : FExpr :=
  .combine ("/") (.valueOf other) self

/-- The exception kinds this module can surface: TypeError (reverse
division, mapping-proxy assignment, division of two different currencies)
and the currency-mismatch error of the base type. -/
inductive PyError where
  | typeError
  | currencyMismatch
deriving DecidableEq

/-- Operand of addition and subtraction: a Money value or a deferred
query-expression token. -/
inductive AddOperand where
  | money (m : Money)
  | fexpr (e : FExpr)
deriving DecidableEq

/-- Operand of multiplication: a plain number or a deferred token. -/
inductive MulOperand where
  | num (d : Dec)
  | fexpr (e : FExpr)
deriving DecidableEq

/-- Operand of true division: a Money value, a plain number, or a deferred
token. -/
inductive DivOperand where
  | money (m : Money)
  | num (d : Dec)
  | fexpr (e : FExpr)
deriving DecidableEq

/-- Possible result of an arithmetic operator: a Money value, a plain
decimal (division of two Money values), or a combined deferred
expression. -/
inductive OpResult where
  | money (m : Money)
  | dec (d : Dec)
  | fexpr (e : FExpr)
deriving DecidableEq

/-- Money.__init__: decimal_places defaults to the process-wide
DECIMAL_PLACES when None is passed; format_options is stored (the read-only
proxy wrapping is modelled separately at reference level below, where
aliasing is observable); amount and currency go to the base constructor. -/
def Money.init (s : Settings) (amount : Dec) (currency : Currency)
    (format_options : Option FormatDict) (decimal_places : Option Nat) : Money :=
  { amount := amount
    currency := currency
    decimal_places := decimal_places.getD s.DECIMAL_PLACES
    format_options := format_options
    use_l10n := none }

/-- Money._copy_attributes: collect the decimal_places attributes of self
and source that are present (getattr with default None) and give target
their maximum, when there are any. -/
def copy_attributes (selfDp sourceDp : Option Nat) (target : Money) : Money :=
  let selection := ([selfDp, sourceDp]).filterMap id
  match selection.max? with
  | some m => { target with decimal_places := m }
  | none => target

/-- maybe_convert: converts the value to the given currency when the
AUTO_CONVERT_MONEY flag is set and the currencies differ; convert_money
stands for the external exchange subsystem and is passed as a parameter. -/
def maybe_convert (s : Settings) (convert_money : Money → Currency → Money)
    (value : Money) (currency : Currency) : Money :=
  if s.AUTO_CONVERT_MONEY.getD false = true ∧ value.currency ≠ currency then
    convert_money value currency
  else value

/-- External base type (py-moneyed) addition, modelled per the spec: raises
a currency mismatch for differing currencies, and otherwise builds the sum
through self.__class__, hence with default subclass attributes, exactly the
behaviour the _copy_attributes docstring compensates for. -/
def defaultAdd (s : Settings) (self other : Money) : Except PyError Money :=
  if self.currency = other.currency then
    .ok (Money.init s (Dec.add self.amount other.amount) self.currency none none)
  else .error .currencyMismatch

/-- External base type subtraction, modelled like defaultAdd. -/
def defaultSub (s : Settings) (self other : Money) : Except PyError Money :=
  if self.currency = other.currency then
    .ok (Money.init s (Dec.sub self.amount other.amount) self.currency none none)
  else .error .currencyMismatch

/-- External base type multiplication by a number, modelled per the spec:
builds the product through self.__class__ with default subclass
attributes. -/
def defaultMul (s : Settings) (self : Money) (other : Dec) : Money :=
  Money.init s (Dec.mul self.amount other) self.currency none none

/-- External base type round(ndigits), modelled per the spec: quantizes the
amount to ndigits decimal digits with the context default rounding
(half-even) and rebuilds through self.__class__ with default subclass
attributes. -/
def defaultRound (s : Settings) (self : Money) (ndigits : Nat) : Money :=
  Money.init s (Dec.quantize self.amount ⟨1, -(ndigits : Int)⟩ RoundingMode.halfEven)
    self.currency none none

/-- Money.__add__: delegate to the reflected operator of a deferred token;
otherwise run the conversion guard on the operand, add through the base
type, and propagate the maximum decimal_places onto the result. -/
def Money.add (s : Settings) (convert_money : Money → Currency → Money)
    (self : Money) : AddOperand → Except PyError OpResult
  | .fexpr e => .ok (.fexpr (FExpr.radd e self))
  | .money m =>
    let other := maybe_convert s convert_money m self.currency
    match defaultAdd s self other with
    | .error err => .error err
    | .ok result =>
        .ok (.money (copy_attributes (some self.decimal_places)
          (some other.decimal_places) result))

/-- Money.__sub__: mirror image of Money.add. -/
def Money.sub (s : Settings) (convert_money : Money → Currency → Money)
    (self : Money) : AddOperand → Except PyError OpResult
  | .fexpr e => .ok (.fexpr (FExpr.rsub e self))
  | .money m =>
    let other := maybe_convert s convert_money m self.currency
    match defaultSub s self other with
    | .error err => .error err
    | .ok result =>
        .ok (.money (copy_attributes (some self.decimal_places)
          (some other.decimal_places) result))

/-- Money.__mul__: delegate to the reflected operator of a deferred token;
otherwise multiply through the base type and propagate attributes (a plain
number carries no decimal_places attribute, so getattr yields None). -/
def Money.mul (s : Settings) (self : Money) : MulOperand → Except PyError OpResult
  | .fexpr e => .ok (.fexpr (FExpr.rmul e self))
  | .num d =>
      .ok (.money (copy_attributes (some self.decimal_places) none (defaultMul s self d)))

/-- Money.__truediv__: delegate to the reflected operator of a deferred
token; division of two Money values yields a plain decimal ratio (so the
result is not a Money and attributes are not copied); division by a number
yields a Money built through the base class, with attributes copied.  The
base decimal division is an external operation, passed as divDec. -/
def Money.truediv (s : Settings) (divDec : Dec → Dec → Dec) (self : Money) :
    DivOperand → Except PyError OpResult
  | .fexpr e => .ok (.fexpr (FExpr.rtruediv e self))
  | .money m =>
      if self.currency = m.currency then .ok (.dec (divDec self.amount m.amount))
      else .error .typeError
  | .num d =>
      .ok (.money (copy_attributes (some self.decimal_places) none
        (Money.init s (divDec self.amount d) self.currency none none)))

/-- Money.__rtruediv__: raises TypeError unconditionally, for any operand
whatsoever. -/
def Money.rtruediv {α : Type} (self : Money) (other : α) : Except PyError OpResult :=
  .error .typeError

/-- Money.is_localized: the instance override when set, else the
process-wide USE_L10N flag read with getattr default True. -/
def Money.is_localized (s : Settings) (self : Money) : Bool :=
  match self.use_l10n with
  | none => s.USE_L10N.getD true
  | some b => b

/-- Money.__round__(n): round the amount (Python round on a Decimal uses the
context default rounding, half-even), rebuild through self.__class__ with
only amount and currency, then copy attributes from self onto the copy. -/
def Money.roundBuiltin (s : Settings) (self : Money) (n : Nat) : Money :=
  let amount := Dec.scaleTo self.amount (-(n : Int)) RoundingMode.halfEven
  let new := Money.init s amount self.currency none none
  copy_attributes (some self.decimal_places) (some self.decimal_places) new

/-- Money.round(ndigits): delegate to the base round, then copy attributes
from self onto the copy. -/
def Money.round (s : Settings) (self : Money) (ndigits : Nat) : Money :=
  let new := defaultRound s self ndigits
  copy_attributes (some self.decimal_places) (some self.decimal_places) new

/-- The module body assigns the reflected operators to the overridden
forward operators: radd is add and rmul is mul. -/
def Money.radd := @Money.add

def Money.rmul := @Money.mul

/-- Money.quantize: rounding defaults to ROUND_HALF_UP; when exp is absent
it is derived from the canonical minor-unit digit count of the currency
(get_currency_precision, an external currency metadata lookup passed as
prec) as Decimal(0.1) to the power digits; the result is built by the plain
Money constructor with amount and currency only. -/
def Money.quantize (s : Settings) (prec : Currency → Nat) (self : Money)
    (exp : Option Dec) (rounding : Option RoundingMode) : Money :=
  let rounding := rounding.getD RoundingMode.halfUp
  let exp : Dec :=
    match exp with
    | none => ⟨1, -(prec self.currency : Int)⟩
    | some e => e
  Money.init s (Dec.quantize self.amount exp rounding) self.currency none none


/-- A small explicit store of Python dict objects, to make the aliasing
behaviour of MappingProxyType observable: the heap holds one mapping per
address. -/
abbrev Heap := List FormatDict

/-- Python dict item assignment on the contents of one mapping. -/
def dictSet : FormatDict → String → String → FormatDict
  | [], k, v => [(k, v)]
  | (k0, v0) :: rest, k, v =>
      if k0 = k then (k, v) :: rest else (k0, v0) :: dictSet rest k v

/-- A reference to a Python mapping object: either a plain dict, or a
types.MappingProxyType wrapper over the dict living at the same address. -/
inductive MappingRef where
  | dictRef (addr : Nat)
  | proxyRef (addr : Nat)
deriving DecidableEq

def MappingRef.addr : MappingRef → Nat
  | .dictRef a => a
  | .proxyRef a => a

/-- Reading a key through a mapping reference: both a dict and a proxy read
the current contents of the dict at their address. -/
def MappingRef.read (h : Heap) (r : MappingRef) (k : String) : Option String :=
  match h.get? r.addr with
  | some d => d.lookup k
  | none => none

/-- Item assignment through a mapping reference: succeeds on a dict,
updating the store; raises TypeError on a mapping proxy, which does not
support item assignment. -/
def MappingRef.write (h : Heap) (r : MappingRef) (k v : String) :
    Except PyError Heap :=
  match r with
  | .proxyRef _ => .error .typeError
  | .dictRef a =>
      match h.get? a with
      | some d => .ok (h.set a (dictSet d k v))
      | none => .error .typeError

/-- MappingProxyType(d): a read-only proxy over the same underlying object,
at the same address - no copy is taken. -/
def mappingProxy : MappingRef → MappingRef
  | .dictRef a => .proxyRef a
  | .proxyRef a => .proxyRef a

/-- The format_options assignment of Money.__init__ at reference level:
MappingProxyType(format_options) if format_options is not None else None. -/
def initFormatOptions (format_options : Option MappingRef) : Option MappingRef :=
  format_options.map mappingProxy

/-- Concrete settings used by the witnesses: default decimal places 2, no
AUTO_CONVERT_MONEY attribute, no USE_L10N attribute. -/
def settingsW : Settings := ⟨2, none, none⟩

def usd : Currency := ⟨("USD")⟩

def eur : Currency := ⟨("EUR")⟩

/-- Identity conversion function used by the witnesses. -/
def convW : Money → Currency → Money := fun v _ => v

/-- Witness value: 10.50 USD with decimal_places 3. -/
def moneyA : Money := ⟨⟨1050, -2⟩, usd, 3, none, none⟩

/-- Witness value: 2.5 USD with decimal_places 1. -/
def moneyB : Money := ⟨⟨25, -1⟩, usd, 1, none, none⟩

/-- Witness value: 10.5 USD carrying explicit format options. -/
def moneyFmt : Money := ⟨⟨105, -1⟩, usd, 4, some [(("decimal_quantization"), ("False"))], none⟩

deriving instance DecidableEq for Except

theorem scaleTo_exp (d : Dec) (e : Int) (mode : RoundingMode) :
    (Dec.scaleTo d e mode).exp = e := by
  unfold Dec.scaleTo
  by_cases h : 0 ≤ d.exp - e <;> simp [h]

theorem copy_attributes_both (x y : Nat) (t : Money) :
    copy_attributes (some x) (some y) t = { t with decimal_places := max x y } := rfl

theorem maybe_convert_same (s : Settings) (convert_money : Money → Currency → Money)
    (v : Money) (c : Currency) (h : v.currency = c) :
    maybe_convert s convert_money v c = v := by
  simp [maybe_convert, h]

theorem add_money_same_currency (s : Settings) (convert_money : Money → Currency → Money)
    (a b : Money) (h : a.currency = b.currency) :
    Money.add s convert_money a (.money b) =
      .ok (.money (copy_attributes (some a.decimal_places) (some b.decimal_places)
        (Money.init s (Dec.add a.amount b.amount) a.currency none none))) := by
  have hm : maybe_convert s convert_money b b.currency = b :=
    maybe_convert_same s convert_money b b.currency rfl
  simp [Money.add, defaultAdd, h, hm]

theorem sub_money_same_currency (s : Settings) (convert_money : Money → Currency → Money)
    (a b : Money) (h : a.currency = b.currency) :
    Money.sub s convert_money a (.money b) =
      .ok (.money (copy_attributes (some a.decimal_places) (some b.decimal_places)
        (Money.init s (Dec.sub a.amount b.amount) a.currency none none))) := by
  have hm : maybe_convert s convert_money b b.currency = b :=
    maybe_convert_same s convert_money b b.currency rfl
  simp [Money.sub, defaultSub, h, hm]

/-- C1: for any two Money values A and B of the same currency, each carrying
an explicit precision hint, with B not a deferred-expression token, both
A + B and A - B return a Money whose decimal_places is the maximum of the
two hints. -/
theorem add_sub_decimal_places_max (s : Settings)
    (convert_money : Money → Currency → Money) (a b : Money)
    (h : a.currency = b.currency) :
    (∃ r : Money, Money.add s convert_money a (.money b) = .ok (.money r) ∧
      r.decimal_places = max a.decimal_places b.decimal_places) ∧
    (∃ r : Money, Money.sub s convert_money a (.money b) = .ok (.money r) ∧
      r.decimal_places = max a.decimal_places b.decimal_places) :=
  ⟨⟨_, add_money_same_currency s convert_money a b h, rfl⟩,
   ⟨_, sub_money_same_currency s convert_money a b h, rfl⟩⟩

theorem add_sub_decimal_places_max_witness :
    moneyA.currency = moneyB.currency ∧
    ((∃ r : Money, Money.add settingsW convW moneyA (.money moneyB) = .ok (.money r) ∧
      r.decimal_places = max moneyA.decimal_places moneyB.decimal_places) ∧
     (∃ r : Money, Money.sub settingsW convW moneyA (.money moneyB) = .ok (.money r) ∧
      r.decimal_places = max moneyA.decimal_places moneyB.decimal_places)) :=
  ⟨rfl, add_sub_decimal_places_max settingsW convW moneyA moneyB rfl⟩

/-- C2 counterexample: rounding a Money that carries format options returns
a Money whose format_options is None, not the original mapping, so the
claim that rounding preserves format_options fails on this input. -/
theorem round_format_options_cex :
    (Money.round settingsW moneyFmt 0).format_options ≠ moneyFmt.format_options ∧
    (Money.roundBuiltin settingsW moneyFmt 0).format_options ≠ moneyFmt.format_options := by
  decide

/-- C2 amended: both rounding operations preserve the decimal_places of the
input, but the format_options of the result is always None; the original
format_options is not propagated. -/
theorem round_preserves_decimal_places (s : Settings) (m : Money) (n : Nat) :
    (Money.roundBuiltin s m n).decimal_places = m.decimal_places ∧
    (Money.roundBuiltin s m n).format_options = none ∧
    (Money.round s m n).decimal_places = m.decimal_places ∧
    (Money.round s m n).format_options = none := by
  refine ⟨?_, rfl, ?_, rfl⟩ <;>
    simp [Money.roundBuiltin, Money.round, copy_attributes_both]

/-- C3: quantizing with no explicit exponent rounds the amount to exactly
the canonical minor-unit digit count of the currency, with half-up rounding
as the default mode, and the result carries default precision metadata:
decimal_places is the process-wide default and format_options is None,
whatever the input carried. -/
theorem quantize_default_spec (s : Settings) (prec : Currency → Nat) (m : Money) :
    (Money.quantize s prec m none none).amount =
        Dec.scaleTo m.amount (-(prec m.currency : Int)) RoundingMode.halfUp ∧
    (Money.quantize s prec m none none).amount.exp = -(prec m.currency : Int) ∧
    (Money.quantize s prec m none none).decimal_places = s.DECIMAL_PLACES ∧
    (Money.quantize s prec m none none).format_options = none :=
  ⟨rfl, scaleTo_exp m.amount (-(prec m.currency : Int)) RoundingMode.halfUp, rfl, rfl⟩

/-- C4: reverse true division on a Money raises TypeError for every operand;
no operand makes it return a value. -/
theorem rtruediv_always_type_error {α : Type} (self : Money) (x : α) :
    Money.rtruediv self x = .error .typeError ∧
    ∀ v : OpResult, Money.rtruediv self x ≠ .ok v :=
  ⟨rfl, fun v hv => by simp [Money.rtruediv] at hv⟩

theorem rtruediv_always_type_error_witness :
    Money.rtruediv moneyA (0 : Nat) = .error .typeError ∧
    ∀ v : OpResult, Money.rtruediv moneyA (0 : Nat) ≠ .ok v :=
  rtruediv_always_type_error moneyA (0 : Nat)

/-- C5: when the operand is a deferred-expression token, each arithmetic
operator returns exactly the delegated result of the corresponding
reflected operator of the token applied to self, independent of any
conversion function, base division or settings, with no metadata
propagation. -/
theorem f_expression_delegation (s : Settings)
    (convert_money : Money → Currency → Money) (divDec : Dec → Dec → Dec)
    (m : Money) (e : FExpr) :
    Money.add s convert_money m (.fexpr e) = .ok (.fexpr (FExpr.radd e m)) ∧
    Money.sub s convert_money m (.fexpr e) = .ok (.fexpr (FExpr.rsub e m)) ∧
    Money.mul s m (.fexpr e) = .ok (.fexpr (FExpr.rmul e m)) ∧
    Money.truediv s divDec m (.fexpr e) = .ok (.fexpr (FExpr.rtruediv e m)) :=
  ⟨rfl, rfl, rfl, rfl⟩

/-- C6: with the auto-convert flag absent or disabled the guard returns the
value unchanged for every conversion function, and addition hands the right
operand unmodified to the base addition; the conversion function is reached
only when the flag is enabled and the currencies differ. -/
theorem maybe_convert_guard_spec (s : Settings)
    (convert_money : Money → Currency → Money) (v a : Money) (c : Currency) :
    maybe_convert { s with AUTO_CONVERT_MONEY := none } convert_money v c = v ∧
    maybe_convert { s with AUTO_CONVERT_MONEY := some false } convert_money v c = v ∧
    Money.add { s with AUTO_CONVERT_MONEY := none } convert_money a (.money v) =
      (defaultAdd { s with AUTO_CONVERT_MONEY := none } a v).map
        (fun r => .money (copy_attributes (some a.decimal_places)
          (some v.decimal_places) r)) ∧
    Money.add { s with AUTO_CONVERT_MONEY := some false } convert_money a (.money v) =
      (defaultAdd { s with AUTO_CONVERT_MONEY := some false } a v).map
        (fun r => .money (copy_attributes (some a.decimal_places)
          (some v.decimal_places) r)) ∧
    maybe_convert { s with AUTO_CONVERT_MONEY := some true } convert_money v c =
      (if v.currency = c then v else convert_money v c) := by
  refine ⟨rfl, rfl, ?_, ?_, ?_⟩
  · cases hd : defaultAdd { s with AUTO_CONVERT_MONEY := none } a v <;>
      simp [Money.add, maybe_convert, hd, Except.map]
  · cases hd : defaultAdd { s with AUTO_CONVERT_MONEY := some false } a v <;>
      simp [Money.add, maybe_convert, hd, Except.map]
  · by_cases hc : v.currency = c <;> simp [maybe_convert, hc]

/-- C7 counterexample: the stored format_options is a proxy over the very
dict the caller passed, so mutating the caller dict afterwards changes what
is read through the stored mapping; it is not an independent copy. -/
theorem format_options_view_cex :
    MappingRef.write [[(("k"), ("1"))]] (MappingRef.dictRef 0) ("k") ("2") =
      .ok [[(("k"), ("2"))]] ∧
    MappingRef.read [[(("k"), ("2"))]] (mappingProxy (MappingRef.dictRef 0)) ("k") ≠
      MappingRef.read [[(("k"), ("1"))]] (mappingProxy (MappingRef.dictRef 0)) ("k") := by
  decide

/-- C7 amended: the stored format_options is a read-only view sharing the
caller mapping: item assignment through it raises TypeError, while reads
through it always see the current contents of the underlying dict,
including later mutations by the caller. -/
theorem format_options_readonly_view (h : Heap) (r : MappingRef) (k v : String) :
    initFormatOptions (some r) = some (mappingProxy r) ∧
    MappingRef.write h (mappingProxy r) k v = .error .typeError ∧
    MappingRef.read h (mappingProxy r) k = MappingRef.read h r k := by
  refine ⟨rfl, ?_, ?_⟩ <;> cases r <;> rfl

/-- C8: constructing a Money and reading back amount, currency and
decimal_places recovers exactly the constructed values, and an omitted
(None) decimal_places defaults to the process-wide DECIMAL_PLACES. -/
theorem construction_readback (s : Settings) (amount : Dec) (currency : Currency)
    (fo : Option FormatDict) (d : Nat) :
    (Money.init s amount currency fo (some d)).amount = amount ∧
    (Money.init s amount currency fo (some d)).currency = currency ∧
    (Money.init s amount currency fo (some d)).decimal_places = d ∧
    (Money.init s amount currency fo none).amount = amount ∧
    (Money.init s amount currency fo none).currency = currency ∧
    (Money.init s amount currency fo none).decimal_places = s.DECIMAL_PLACES :=
  ⟨rfl, rfl, rfl, rfl, rfl, rfl⟩

/-- C9: is_localized returns the instance-level use_l10n override when it is
set; when it is unset it returns the process-wide USE_L10N flag, and true
when that flag is entirely absent. -/
theorem is_localized_spec (s : Settings) (m : Money) (b : Bool) :
    Money.is_localized s { m with use_l10n := some b } = b ∧
    Money.is_localized { s with USE_L10N := some b } { m with use_l10n := none } = b ∧
    Money.is_localized { s with USE_L10N := none } { m with use_l10n := none } = true :=
  ⟨rfl, rfl, rfl⟩

/-- C10: the reflected addition and multiplication operators are the very
same functions as the overridden forward operators, so evaluating them
applies the same conversion guard and the same precision-metadata
propagation; in particular reflected addition of two same-currency Money
values also yields the maximum decimal_places. -/
theorem reflected_operators_alias (s : Settings)
    (convert_money : Money → Currency → Money) (a b : Money)
    (h : a.currency = b.currency) :
    Money.radd = Money.add ∧ Money.rmul = Money.mul ∧
    (∃ r : Money, Money.radd s convert_money a (.money b) = .ok (.money r) ∧
      r.decimal_places = max a.decimal_places b.decimal_places) :=
  ⟨rfl, rfl, ⟨_, add_money_same_currency s convert_money a b h, rfl⟩⟩

theorem reflected_operators_alias_witness :
    moneyA.currency = moneyB.currency ∧
    (Money.radd = Money.add ∧ Money.rmul = Money.mul ∧
    (∃ r : Money, Money.radd settingsW convW moneyA (.money moneyB) = .ok (.money r) ∧
      r.decimal_places = max moneyA.decimal_places moneyB.decimal_places)) :=
  ⟨rfl, reflected_operators_alias settingsW convW moneyA moneyB rfl⟩
